import Mathlib

/-!
Shallow embedding of the internet-asset-intelligence-platform ingest pipeline
(risk scoring, GeoIP enrichment, CVE rule matching, TLS certificate parsing,
signature verification, sink writes, and scanner banner capture), together
with theorems settling the specification claims about it.

Conventions of the embedding:
* Python dicts with optional keys become structures with `Option` fields;
  a `dict.get(k, d)` becomes `Option.getD`.
* ISO-8601 datetimes are modelled as integer timestamps; `isoformat` /
  `fromisoformat` round-trip is the identity, and `<` on datetimes is `<`
  on the integers.
* Python `int` is `Int`.
* Regular-expression compilation/search (`re.search`) is an oracle
  parameter `search : String → String → RegexOutcome`, with `.err`
  standing for a raised `re.error` (malformed pattern).
-/

/-! ## Data model (event dicts) -/

/-- `event["enrichment"]["geoip"]` as produced by `enrich_ip`:
a dict with keys `country_name`, `city_name`, `location`. -/
structure GeoIp where
  country_name : Option String
  city_name : Option String
  location : Option (Int × Int)
  deriving Repr, DecidableEq

/-- The fields of `event["enrichment"]["tls_cert"]` that any modelled code
reads: `risk_scorer` consults only `self_signed` (truthiness) and
`valid_to` (truthiness, then `fromisoformat`). An absent or falsy key is
`false` / `none`. -/
structure TlsCert where
  self_signed : Bool
  valid_to : Option Int
  deriving Repr, DecidableEq

/-- One entry of `event["enrichment"]["cve_matches"]`; `severity` with
`.get("severity", "UNKNOWN")` semantics is an `Option`. -/
structure CveMatch where
  cve_id : Option String
  severity : Option String
  description : Option String
  matched_on : Option String
  matched_value : Option String
  deriving Repr, DecidableEq

/-- `event["enrichment"]`: each key may be absent. -/
structure Enrichment where
  geoip : Option GeoIp
  tls_cert : Option TlsCert
  cve_matches : Option (List CveMatch)
  deriving Repr, DecidableEq

/-- `event["probes"]["http"]`: a dict that may or may not carry a
`headers` dict (a string-keyed map). -/
structure HttpProbe where
  headers : Option (List (String × String))
  deriving Repr, DecidableEq

/-- `event["probes"]["ssh_banner"]`: a dict that may carry a `Banner` key. -/
structure SshProbe where
  banner : Option String
  deriving Repr, DecidableEq

/-- `event["probes"]`. -/
structure Probes where
  http : Option HttpProbe
  ssh_banner : Option SshProbe
  deriving Repr, DecidableEq

/-- `event["target"]`. -/
structure Target where
  ip : Option String
  port : Option Int
  deriving Repr, DecidableEq

/-- A collector event dict, restricted to the keys the scoring and
enrichment code reads. -/
structure Event where
  target : Option Target
  probes : Option Probes
  enrichment : Option Enrichment
  deriving Repr, DecidableEq

/-- `dict.get(k, "")` on a string-keyed dict modelled as an association
list (first binding wins, as in a Python dict there is at most one). -/
def dictGetD (m : List (String × String)) (k d : String) : String :=
  match m.lookup k with
  | some v => v
  | none => d

/-- Character-list prefix test used by the substring search. -/
def isPrefixCh : List Char → List Char → Bool
  | [], _ => true
  | _ :: _, [] => false
  | a :: as, b :: bs => a == b && isPrefixCh as bs

/-- Character-list infix test used by the substring search. -/
def isInfixCh (needle : List Char) : List Char → Bool
  | [] => needle.isEmpty
  | b :: bs => isPrefixCh needle (b :: bs) || isInfixCh needle bs

/-- Substring test: `needle in hay` on Python strings. -/
def strContains (hay needle : String) : Bool :=
  isInfixCh needle.data hay.data

/-! ## risk_scorer.py -/

/-- The breakdown dict built by `get_risk_breakdown`, in insertion order
port, service, vuln, cert, exposure, freshness. -/
structure RiskBreakdown where
  port_score : Int
  service_score : Int
  vuln_score : Int
  cert_score : Int
  exposure_score : Int
  freshness_score : Int
  deriving Repr, DecidableEq

/-- `breakdown.values()` in dict insertion order. -/
def RiskBreakdown.values (b : RiskBreakdown) : List Int :=
  [b.port_score, b.service_score, b.vuln_score,
   b.cert_score, b.exposure_score, b.freshness_score]

/-- `event.get("target", {}).get("port")`. -/
def Event.targetPort (e : Event) : Option Int :=
  match e.target with
  | some t => t.port
  | none => none

/-- The per-CVE contribution of the vuln-score loop:
`severity = cve.get("severity", "UNKNOWN").upper()` then the
CRITICAL/HIGH/MEDIUM/LOW ladder. -/
def vulnContribution (cve : CveMatch) : Int :=
  let severity := (cve.severity.getD "UNKNOWN").toUpper
  if severity = "CRITICAL" then 30
  else if severity = "HIGH" then 20
  else if severity = "MEDIUM" then 10
  else if severity = "LOW" then 5
  else 0

/-- `get_risk_breakdown(event)` from `src/ingest/scoring/risk_scorer.py`,
with `now` the value of `datetime.now(timezone.utc)` at evaluation time.
Each component mirrors the corresponding block of the Python function. -/
def get_risk_breakdown (now : Int) (e : Event) : RiskBreakdown :=
  let target_port := e.targetPort
  let port1 : Int :=
    if target_port = some 21 ∨ target_port = some 22 ∨ target_port = some 23 ∨
       target_port = some 80 ∨ target_port = some 443 ∨ target_port = some 3389
    then 5 else 0
  let port2 : Int := if target_port = some 23 then 10 else 0
  let service : Int :=
    match e.probes with
    | none => 0
    | some probes =>
      let sHttp : Int :=
        match probes.http with
        | none => 0
        | some http =>
          let server_header := (dictGetD (http.headers.getD []) "Server" "").toLower
          if strContains server_header "nginx" ∨ strContains server_header "apache"
          then 2 else 0
      let sSsh : Int :=
        match probes.ssh_banner with
        | none => 0
        | some ssh =>
          let ssh_banner := (ssh.banner.getD "").toLower
          if ¬ strContains ssh_banner "openssh" then 5 else 0
      sHttp + sSsh
  let vuln : Int :=
    match e.enrichment with
    | none => 0
    | some en =>
      match en.cve_matches with
      | none => 0
      | some cves => (cves.map vulnContribution).sum
  let cert : Int :=
    match e.enrichment with
    | none => 0
    | some en =>
      match en.tls_cert with
      | none => 0
      | some tls =>
        (if tls.self_signed then 10 else 0) +
        (match tls.valid_to with
         | some valid_to_dt => if valid_to_dt < now then 15 else 0
         | none => 0)
  let exposure : Int :=
    match e.enrichment with
    | none => 0
    | some en =>
      match en.geoip with
      | none => 0
      | some g =>
        let country := g.country_name
        if ¬ (country = some "PRIVATE" ∨ country = some "LOCALHOST" ∨
              country = some "UNKNOWN")
        then 5 else 0
  { port_score := port1 + port2
    service_score := service
    vuln_score := vuln
    cert_score := cert
    exposure_score := exposure
    freshness_score := 0 }

/-- `calculate_risk(event)`: sum the breakdown components in a loop, then
clamp with `min(100, max(0, score))`. -/
def calculate_risk (now : Int) (e : Event) : Int :=
  let breakdown := get_risk_breakdown now e
  let score := breakdown.values.foldl (fun acc s => acc + s) 0
  min 100 (max 0 score)

/-- C1: `calculate_risk(event)` equals `clamp(sum(get_risk_breakdown(event).values()), 0, 100)`,
and the result always lies in `[0, 100]`. -/
theorem calculate_risk_is_clamped_breakdown_sum (now : Int) (e : Event) :
    calculate_risk now e =
      min 100 (max 0 (get_risk_breakdown now e).values.sum) ∧
    0 ≤ calculate_risk now e ∧ calculate_risk now e ≤ 100 := by
  have hsum : ∀ l : List Int, l.foldl (fun acc s => acc + s) 0 = l.sum := by
    intro l
    exact (List.sum_eq_foldl).symm
  refine ⟨by simp [calculate_risk, hsum], ?_, ?_⟩
  · exact le_min (by norm_num) (le_max_left _ _)
  · exact min_le_left _ _

/-! ## geoip.py -/

/-- The outcome of `reader.city(ip)`: a city response, a raised
`AddressNotFoundError`, or any other raised exception. -/
inductive LookupResult
  | city (country city : Option String) (lat lon : Int)
  | addressNotFound
  | failure
  deriving Repr, DecidableEq

/-- `{"country_name": "PRIVATE", "city_name": "PRIVATE", "location": None}`. -/
def privateMarker : GeoIp := ⟨some "PRIVATE", some "PRIVATE", none⟩

/-- `{"country_name": "UNKNOWN", "city_name": "UNKNOWN", "location": None}`. -/
def unknownMarker : GeoIp := ⟨some "UNKNOWN", some "UNKNOWN", none⟩

/-- `{"country_name": "ERROR", "city_name": "ERROR", "location": None}`. -/
def errorMarker : GeoIp := ⟨some "ERROR", some "ERROR", none⟩

/-- `s.startswith(p)` on Python strings. -/
def pyStartswith (s p : String) : Bool :=
  isPrefixCh p.data s.data

/-- `enrich_ip(reader, ip_address)` from `src/ingest/enrichment/geoip.py`.
The reader is `none` when `load_geoip_db` returned `None`; otherwise it is
the database lookup `ip ↦ reader.city(ip)` outcome. -/
def enrich_ip (reader : Option (String → LookupResult)) (ip_address : String) : GeoIp :=
  if pyStartswith ip_address "127." || pyStartswith ip_address "10." ||
     pyStartswith ip_address "172.16." || pyStartswith ip_address "192.168." then
    privateMarker
  else
    match reader with
    | none => unknownMarker
    | some r =>
      match r ip_address with
      | .city country city lat lon => ⟨country, city, some (lat, lon)⟩
      | .addressNotFound => unknownMarker
      | .failure => errorMarker

/-- Split a character list on `.` separators. -/
def splitOnDot (cs : List Char) : List (List Char) :=
  cs.foldr
    (fun c acc =>
      if c == '.' then [] :: acc
      else
        match acc with
        | g :: gs => (c :: g) :: gs
        | [] => [[c]])
    [[]]

/-- Read a nonempty list of decimal digits as a number. -/
def digitsToNat (cs : List Char) : Option Nat :=
  if cs.isEmpty then none
  else
    cs.foldl
      (fun acc c =>
        match acc with
        | some n => if '0' ≤ c ∧ c ≤ '9' then some (n * 10 + (c.toNat - 48)) else none
        | none => none)
      (some 0)

/-- Parse a dotted-quad IPv4 string into octets. -/
def ipOctets (s : String) : Option (Nat × Nat × Nat × Nat) :=
  match (splitOnDot s.data).map digitsToNat with
  | [some a, some b, some c, some d] =>
    if a ≤ 255 ∧ b ≤ 255 ∧ c ≤ 255 ∧ d ≤ 255 then some (a, b, c, d) else none
  | _ => none

/-- Modelled from the spec: membership of an IPv4 string in the loopback
range (127.0.0.0/8) or one of the RFC1918 private ranges (10.0.0.0/8,
172.16.0.0/12, 192.168.0.0/16), the class the claim quantifies over. -/
def inLoopbackOrRfc1918 (s : String) : Bool :=
  match ipOctets s with
  | some (a, b, _, _) =>
    a == 127 || a == 10 || (a == 172 && 16 ≤ b && b ≤ 31) || (a == 192 && b == 168)
  | none => false

/-- A database reader standing for a populated GeoIP database. -/
def sampleReader : String → LookupResult :=
  fun _ => LookupResult.city (some "Germany") (some "Berlin") 52 13

/-- C4 counterexample: `172.17.0.1` lies in RFC1918 (172.16.0.0/12), yet
`enrich_ip` does not short-circuit it to the PRIVATE marker: the code only
tests the string prefixes `127.`/`10.`/`172.16.`/`192.168.`, so the
database reader is consulted and its city result is returned. -/
theorem enrich_ip_rfc1918_counterexample :
    inLoopbackOrRfc1918 "172.17.0.1" = true ∧
    enrich_ip (some sampleReader) "172.17.0.1" =
      ⟨some "Germany", some "Berlin", some (52, 13)⟩ ∧
    enrich_ip (some sampleReader) "172.17.0.1" ≠ privateMarker := by
  refine ⟨by decide, rfl, by decide⟩

/-- C4 (amended): every IP string starting with `127.`, `10.`, `172.16.`
or `192.168.` yields the PRIVATE marker for every reader, i.e. without the
database being consulted. -/
theorem enrich_ip_private_on_checked_prefixes
    (reader : Option (String → LookupResult)) (ip : String)
    (h : pyStartswith ip "127." = true ∨ pyStartswith ip "10." = true ∨
         pyStartswith ip "172.16." = true ∨ pyStartswith ip "192.168." = true) :
    enrich_ip reader ip = privateMarker := by
  rcases h with h | h | h | h <;> simp [enrich_ip, h]

/-- C4 witness: the three addresses named by the spec each short-circuit
to the PRIVATE marker with no reader present. -/
theorem enrich_ip_private_on_checked_prefixes_witness :
    enrich_ip none "10.0.0.5" = privateMarker ∧
    enrich_ip none "127.0.0.1" = privateMarker ∧
    enrich_ip none "192.168.1.1" = privateMarker :=
  ⟨enrich_ip_private_on_checked_prefixes none "10.0.0.5" (Or.inr (Or.inl (by decide))),
   enrich_ip_private_on_checked_prefixes none "127.0.0.1" (Or.inl (by decide)),
   enrich_ip_private_on_checked_prefixes none "192.168.1.1"
     (Or.inr (Or.inr (Or.inr (by decide))))⟩

/-! ## Claims about exposure, the Telnet example and the cert score -/

/-- An event whose GeoIP country is the `LOCALHOST` marker string, which
is neither the PRIVATE nor the UNKNOWN marker. -/
def localhostCountryEvent : Event :=
  { target := none
    probes := none
    enrichment := some
      { geoip := some ⟨some "LOCALHOST", none, none⟩
        tls_cert := none
        cve_matches := none } }

/-- C5 counterexample: for the event whose GeoIP country is `LOCALHOST`
— neither the PRIVATE nor the UNKNOWN marker, hence counted by the claim
as a real public-location result — the code assigns `exposure_score = 0`,
not 5: the source excludes `LOCALHOST` alongside `PRIVATE` and `UNKNOWN`. -/
theorem exposure_score_iff_fails_on_localhost :
    ¬ (((get_risk_breakdown 0 localhostCountryEvent).exposure_score = 5) ↔
       ((some "LOCALHOST" : Option String) ≠ some "PRIVATE" ∧
        (some "LOCALHOST" : Option String) ≠ some "UNKNOWN")) := by
  decide

/-- C5 (amended): for every event carrying a GeoIP enrichment result,
`exposure_score` is 5 when the country name is none of the marker strings
`PRIVATE`, `LOCALHOST`, `UNKNOWN`, and 0 when it is one of them. -/
theorem exposure_score_characterization (now : Int) (e : Event)
    (en : Enrichment) (g : GeoIp)
    (hen : e.enrichment = some en) (hg : en.geoip = some g) :
    (get_risk_breakdown now e).exposure_score =
      if g.country_name = some "PRIVATE" ∨ g.country_name = some "LOCALHOST" ∨
         g.country_name = some "UNKNOWN"
      then 0 else 5 := by
  by_cases hc : g.country_name = some "PRIVATE" ∨ g.country_name = some "LOCALHOST" ∨
      g.country_name = some "UNKNOWN" <;>
    simp [get_risk_breakdown, hen, hg, hc]

/-- C5 witness: a concrete event with country `Germany` gets
`exposure_score = 5`. -/
theorem exposure_score_characterization_witness :
    (get_risk_breakdown 0
      { target := none, probes := none
        enrichment := some
          { geoip := some ⟨some "Germany", some "Berlin", none⟩
            tls_cert := none, cve_matches := none } }).exposure_score = 5 := by
  have h := exposure_score_characterization 0
    { target := none, probes := none
      enrichment := some
        { geoip := some ⟨some "Germany", some "Berlin", none⟩
          tls_cert := none, cve_matches := none } }
    { geoip := some ⟨some "Germany", some "Berlin", none⟩
      tls_cert := none, cve_matches := none }
    ⟨some "Germany", some "Berlin", none⟩ rfl rfl
  simpa using h

/-- A Telnet event (port 23) whose GeoIP country is the `LOCALHOST`
string: it satisfies every condition of the C3 claim under the claim's
own reading of "public (non-PRIVATE/UNKNOWN)". -/
def telnetLocalhostEvent : Event :=
  { target := some { ip := some "203.0.113.9", port := some 23 }
    probes := none
    enrichment := some
      { geoip := some ⟨some "LOCALHOST", none, none⟩
        tls_cert := none
        cve_matches := some [] } }

/-- C3 counterexample: a port-23 event with no probes, no TLS certificate,
no CVE matches, and GeoIP country `LOCALHOST` (which is non-PRIVATE and
non-UNKNOWN, so inside the claim's class) scores `exposure_score = 0` and
total 15, not the claimed breakdown with `exposure_score = 5` and risk 20. -/
theorem telnet_example_fails_on_localhost :
    (some "LOCALHOST" : Option String) ≠ some "PRIVATE" ∧
    (some "LOCALHOST" : Option String) ≠ some "UNKNOWN" ∧
    get_risk_breakdown 0 telnetLocalhostEvent ≠ ⟨15, 0, 0, 0, 5, 0⟩ ∧
    calculate_risk 0 telnetLocalhostEvent = 15 := by
  refine ⟨by decide, by decide, by decide, by decide⟩

/-- C3 (amended): every event with target port 23, no `ssh_banner` probe,
no common-web-server `Server` header, no TLS certificate, no CVE matches,
and a GeoIP country outside the markers `PRIVATE`/`LOCALHOST`/`UNKNOWN`
gets exactly the breakdown
`{port: 15, service: 0, vuln: 0, cert: 0, exposure: 5, freshness: 0}` and
risk score 20. -/
theorem telnet_public_event_scores_twenty (now : Int) (e : Event)
    (en : Enrichment) (g : GeoIp) (c : String)
    (hport : e.targetPort = some 23)
    (hssh : ∀ p, e.probes = some p → p.ssh_banner = none)
    (hhttp : ∀ p h, e.probes = some p → p.http = some h →
      strContains (dictGetD (h.headers.getD []) "Server" "").toLower "nginx" = false ∧
      strContains (dictGetD (h.headers.getD []) "Server" "").toLower "apache" = false)
    (hen : e.enrichment = some en)
    (htls : en.tls_cert = none)
    (hcve : en.cve_matches = none ∨ en.cve_matches = some [])
    (hg : en.geoip = some g)
    (hc : g.country_name = some c)
    (hpub : c ≠ "PRIVATE" ∧ c ≠ "LOCALHOST" ∧ c ≠ "UNKNOWN") :
    get_risk_breakdown now e = ⟨15, 0, 0, 0, 5, 0⟩ ∧
    calculate_risk now e = 20 := by
  have hb : get_risk_breakdown now e = ⟨15, 0, 0, 0, 5, 0⟩ := by
    obtain ⟨hp1, hp2, hp3⟩ := hpub
    rcases hprobes : e.probes with _ | p
    · rcases hcve with hcv | hcv <;>
        simp [get_risk_breakdown, hport, hprobes, hen, htls, hcv, hg, hc, hp1, hp2, hp3]
    · have hsshp := hssh p hprobes
      rcases hhp : p.http with _ | hx
      · rcases hcve with hcv | hcv <;>
          simp [get_risk_breakdown, hport, hprobes, hhp, hsshp, hen, htls, hcv, hg, hc,
            hp1, hp2, hp3]
      · obtain ⟨hn, ha⟩ := hhttp p hx hprobes hhp
        rcases hcve with hcv | hcv <;>
          simp [get_risk_breakdown, hport, hprobes, hhp, hsshp, hn, ha, hen, htls, hcv,
            hg, hc, hp1, hp2, hp3]
  refine ⟨hb, ?_⟩
  simp [calculate_risk, hb, RiskBreakdown.values]

/-! ## tls_parser.py -/

/-- The content of a successfully loaded DER certificate that
`parse_certificate` reads: issuer and subject as x509 Names (attribute
lists of OID/value pairs, compared structurally by `==` in the source),
and the UTC validity bounds as integer timestamps. -/
structure X509Cert where
  issuer : List (String × String)
  subject : List (String × String)
  not_valid_before : Int
  not_valid_after : Int
  deriving Repr, DecidableEq

/-- The fields of the dict returned by `parse_certificate` (from
`src/ingest/enrichment/tls_parser.py`) that the risk scorer consults:
`self_signed = (cert.issuer == cert.subject)` and
`valid_to = cert.not_valid_after_utc.isoformat()` (a timestamp here, as
`fromisoformat` round-trips it). The other returned keys (`subject_cn`,
`subject_sans`, `issuer_cn`, `valid_from`, `key_algo`, `key_size`,
`cert_der_b64`) are consulted by no claim. -/
def parse_certificate (c : X509Cert) : TlsCert :=
  { self_signed := c.issuer == c.subject
    valid_to := some c.not_valid_after }

/-- C6: for an event whose enrichment carries a parsed TLS certificate,
the cert score is the sum of 10 for self-signed (issuer structurally equal
to subject) and 15 for an expiry strictly before evaluation time, so both
conditions give exactly 25 and one condition alone gives only its own
contribution. -/
theorem cert_score_self_signed_and_expired_additive (now : Int) (e : Event)
    (en : Enrichment) (c : X509Cert)
    (hen : e.enrichment = some en)
    (htls : en.tls_cert = some (parse_certificate c)) :
    (get_risk_breakdown now e).cert_score =
      (if c.issuer = c.subject then 10 else 0) +
      (if c.not_valid_after < now then 15 else 0) := by
  simp [get_risk_breakdown, hen, htls, parse_certificate]

/-- C6 witness: a concrete self-signed certificate expired one tick before
evaluation time yields `cert_score = 25`. -/
theorem cert_score_self_signed_and_expired_additive_witness :
    (get_risk_breakdown 0
      { target := none, probes := none
        enrichment := some
          { geoip := none
            tls_cert := some (parse_certificate
              { issuer := [("CN", "self")], subject := [("CN", "self")]
                not_valid_before := -10, not_valid_after := -1 })
            cve_matches := none } }).cert_score = 25 := by
  have h := cert_score_self_signed_and_expired_additive 0
    { target := none, probes := none
      enrichment := some
        { geoip := none
          tls_cert := some (parse_certificate
            { issuer := [("CN", "self")], subject := [("CN", "self")]
              not_valid_before := -10, not_valid_after := -1 })
          cve_matches := none } }
    { geoip := none
      tls_cert := some (parse_certificate
        { issuer := [("CN", "self")], subject := [("CN", "self")]
          not_valid_before := -10, not_valid_after := -1 })
      cve_matches := none }
    { issuer := [("CN", "self")], subject := [("CN", "self")]
      not_valid_before := -10, not_valid_after := -1 }
    rfl rfl
  simpa using h

/-! ## cve_rules.py -/

/-- The outcome of `re.search(pattern, text, re.IGNORECASE)`: a match, no
match, or a raised `re.error` (the pattern failed to compile). -/
inductive RegexOutcome
  | err
  | matched
  | notMatched
  deriving Repr, DecidableEq

/-- One CVE rule as loaded from YAML; every key may be absent. -/
structure Rule where
  cve_id : Option String
  severity : Option String
  description : Option String
  server_regex : Option String
  ssh_banner_regex : Option String
  deriving Repr, DecidableEq

/-- One entry appended to `matched_cves`. -/
structure CveHit where
  cve_id : String
  severity : String
  description : String
  matched_on : String
  matched_value : String
  deriving Repr, DecidableEq

/-- The body of one iteration of a matching loop in `match_cves`: if the
rule carries the relevant regex key, run `re.search`; a match appends a
hit, no match appends nothing, and a raised `re.error` is logged and the
rule is skipped. -/
def ruleHit (search : String → String → RegexOutcome)
    (getRegex : Rule → Option String) (tag text : String) (r : Rule) :
    Option CveHit :=
  match getRegex r with
  | none => none
  | some pat =>
    match search pat text with
    | RegexOutcome.matched =>
      some { cve_id := r.cve_id.getD "UNKNOWN"
             severity := r.severity.getD "UNKNOWN"
             description := r.description.getD "No description provided."
             matched_on := tag
             matched_value := text }
    | RegexOutcome.err => none
    | RegexOutcome.notMatched => none

/-- The HTTP `Server`-header block of `match_cves`: guarded by
`'http' in probes and 'headers' in probes['http']` and by the truthiness
of the extracted header. -/
def serverHeaderMatches (search : String → String → RegexOutcome)
    (cve_rules : List Rule) (probes : Probes) : List CveHit :=
  match probes.http with
  | none => []
  | some http =>
    match http.headers with
    | none => []
    | some headers =>
      let server_header := dictGetD headers "Server" ""
      if server_header ≠ "" then
        cve_rules.filterMap
          (ruleHit search Rule.server_regex "http_server_header" server_header)
      else []

/-- The SSH-banner block of `match_cves`: guarded by
`'ssh_banner' in probes and 'Banner' in probes['ssh_banner']` and by the
truthiness of the banner. -/
def sshBannerMatches (search : String → String → RegexOutcome)
    (cve_rules : List Rule) (probes : Probes) : List CveHit :=
  match probes.ssh_banner with
  | none => []
  | some ssh =>
    match ssh.banner with
    | none => []
    | some b =>
      if b ≠ "" then
        cve_rules.filterMap (ruleHit search Rule.ssh_banner_regex "ssh_banner" b)
      else []

/-- `match_cves(cve_rules, probes)` from
`src/ingest/enrichment/cve_rules.py`: the server-header matches followed
by the SSH-banner matches, in rule order within each block. -/
def match_cves (search : String → String → RegexOutcome)
    (cve_rules : List Rule) (probes : Probes) : List CveHit :=
  serverHeaderMatches search cve_rules probes ++
    sshBannerMatches search cve_rules probes

/-- A rule all of whose present regexes fail to compile contributes
nothing to a loop iteration. -/
theorem ruleHit_none_of_err (search : String → String → RegexOutcome)
    (getRegex : Rule → Option String) (tag text : String) (r : Rule)
    (herr : ∀ pat, getRegex r = some pat → search pat text = RegexOutcome.err) :
    ruleHit search getRegex tag text r = none := by
  unfold ruleHit
  cases hg : getRegex r with
  | none => rfl
  | some pat =>
    have h := herr pat hg
    simp [h]

/-- Dropping a rule that contributes nothing leaves a filterMap unchanged. -/
theorem filterMap_drop_middle {α β : Type} (f : α → Option β) (l1 l2 : List α)
    (r : α) (h : f r = none) :
    (l1 ++ r :: l2).filterMap f = (l1 ++ l2).filterMap f := by
  simp [List.filterMap_append, List.filterMap_cons, h]

/-- C7: a rule whose regexes are malformed (every `re.search` on them
raises `re.error`) is skipped without aborting: `match_cves` over a rule
list containing it returns exactly the matches of the remaining rules
against the same probes. -/
theorem match_cves_skips_malformed_rule (search : String → String → RegexOutcome)
    (l1 l2 : List Rule) (r : Rule) (probes : Probes)
    (herr : ∀ pat t, r.server_regex = some pat ∨ r.ssh_banner_regex = some pat →
      search pat t = RegexOutcome.err) :
    match_cves search (l1 ++ r :: l2) probes = match_cves search (l1 ++ l2) probes := by
  have hs : ∀ tag text, ruleHit search Rule.server_regex tag text r = none :=
    fun tag text =>
      ruleHit_none_of_err search Rule.server_regex tag text r
        (fun pat hp => herr pat text (Or.inl hp))
  have hb : ∀ tag text, ruleHit search Rule.ssh_banner_regex tag text r = none :=
    fun tag text =>
      ruleHit_none_of_err search Rule.ssh_banner_regex tag text r
        (fun pat hp => herr pat text (Or.inr hp))
  have hserver : serverHeaderMatches search (l1 ++ r :: l2) probes =
      serverHeaderMatches search (l1 ++ l2) probes := by
    rcases hh : probes.http with _ | http
    · simp [serverHeaderMatches, hh]
    · rcases hhd : http.headers with _ | headers
      · simp [serverHeaderMatches, hh, hhd]
      · simp only [serverHeaderMatches, hh, hhd]
        split
        · exact filterMap_drop_middle _ l1 l2 r (hs _ _)
        · rfl
  have hssh : sshBannerMatches search (l1 ++ r :: l2) probes =
      sshBannerMatches search (l1 ++ l2) probes := by
    rcases hh : probes.ssh_banner with _ | ssh
    · simp [sshBannerMatches, hh]
    · rcases hbn : ssh.banner with _ | b
      · simp [sshBannerMatches, hh, hbn]
      · simp only [sshBannerMatches, hh, hbn]
        split
        · exact filterMap_drop_middle _ l1 l2 r (hb _ _)
        · rfl
  unfold match_cves
  rw [hserver, hssh]

/-- C7 witness: with a malformed middle rule between two well-formed
rules, the result equals the two hits of the well-formed rules alone. -/
theorem match_cves_skips_malformed_rule_witness :
    match_cves
      (fun pat _ => if pat = "(" then RegexOutcome.err else RegexOutcome.matched)
      [{ cve_id := some "CVE-1", severity := none, description := none,
         server_regex := some "nginx", ssh_banner_regex := none },
       { cve_id := some "CVE-BAD", severity := none, description := none,
         server_regex := some "(", ssh_banner_regex := some "(" },
       { cve_id := some "CVE-2", severity := none, description := none,
         server_regex := some "apache", ssh_banner_regex := none }]
      { http := some { headers := some [("Server", "nginx apache")] },
        ssh_banner := none } =
    match_cves
      (fun pat _ => if pat = "(" then RegexOutcome.err else RegexOutcome.matched)
      [{ cve_id := some "CVE-1", severity := none, description := none,
         server_regex := some "nginx", ssh_banner_regex := none },
       { cve_id := some "CVE-2", severity := none, description := none,
         server_regex := some "apache", ssh_banner_regex := none }]
      { http := some { headers := some [("Server", "nginx apache")] },
        ssh_banner := none } := by
  have h := match_cves_skips_malformed_rule
    (fun pat _ => if pat = "(" then RegexOutcome.err else RegexOutcome.matched)
    [{ cve_id := some "CVE-1", severity := none, description := none,
       server_regex := some "nginx", ssh_banner_regex := none }]
    [{ cve_id := some "CVE-2", severity := none, description := none,
       server_regex := some "apache", ssh_banner_regex := none }]
    { cve_id := some "CVE-BAD", severity := none, description := none,
      server_regex := some "(", ssh_banner_regex := some "(" }
    { http := some { headers := some [("Server", "nginx apache")] },
      ssh_banner := none }
    (by intro pat t hp; rcases hp with hp | hp <;> simp_all)
  simpa using h

/-- A hit produced by one loop iteration carries the loop's `matched_on`
tag. -/
theorem ruleHit_matched_on (search : String → String → RegexOutcome)
    (getRegex : Rule → Option String) (tag text : String) (r : Rule)
    (m : CveHit) (h : ruleHit search getRegex tag text r = some m) :
    m.matched_on = tag := by
  unfold ruleHit at h
  split at h
  · exact absurd h (by simp)
  · split at h
    · injection h with h2
      rw [← h2]
    · exact absurd h (by simp)
    · exact absurd h (by simp)

/-- C10: every match returned by `match_cves` has `matched_on` equal to
`http_server_header` or to `ssh_banner`: only the HTTP `Server` header
and the SSH banner probe fields are ever matched against. -/
theorem match_cves_matched_on_limited (search : String → String → RegexOutcome)
    (cve_rules : List Rule) (probes : Probes) (m : CveHit)
    (hm : m ∈ match_cves search cve_rules probes) :
    m.matched_on = "http_server_header" ∨ m.matched_on = "ssh_banner" := by
  unfold match_cves at hm
  rcases List.mem_append.mp hm with hm | hm
  · left
    unfold serverHeaderMatches at hm
    split at hm
    · exact absurd hm (by simp)
    · split at hm
      · exact absurd hm (by simp)
      · simp only [] at hm
        split at hm
        · obtain ⟨r, _, hr⟩ := List.mem_filterMap.mp hm
          exact ruleHit_matched_on _ _ _ _ _ _ hr
        · exact absurd hm (by simp)
  · right
    unfold sshBannerMatches at hm
    split at hm
    · exact absurd hm (by simp)
    · split at hm
      · exact absurd hm (by simp)
      · split at hm
        · obtain ⟨r, _, hr⟩ := List.mem_filterMap.mp hm
          exact ruleHit_matched_on _ _ _ _ _ _ hr
        · exact absurd hm (by simp)

/-- C10 witness: a concrete run that produces a hit, whose `matched_on` is
one of the two probe fields. -/
theorem match_cves_matched_on_limited_witness :
    ({ cve_id := "CVE-1", severity := "UNKNOWN",
       description := "No description provided.",
       matched_on := "http_server_header",
       matched_value := "nginx/1.21" } : CveHit).matched_on = "http_server_header" ∨
    ({ cve_id := "CVE-1", severity := "UNKNOWN",
       description := "No description provided.",
       matched_on := "http_server_header",
       matched_value := "nginx/1.21" } : CveHit).matched_on = "ssh_banner" :=
  match_cves_matched_on_limited
    (fun _ _ => RegexOutcome.matched)
    [{ cve_id := some "CVE-1", severity := none, description := none,
       server_regex := some "nginx", ssh_banner_regex := none }]
    { http := some { headers := some [("Server", "nginx/1.21")] },
      ssh_banner := none }
    { cve_id := "CVE-1", severity := "UNKNOWN",
      description := "No description provided.",
      matched_on := "http_server_header", matched_value := "nginx/1.21" }
    (by decide)

/-! ## main.py: _verify_signature -/

/-- The outcome of `verify_key.verify(event_data, signature)`: success, a
raised `BadSignatureError`, or any other raised exception. -/
inductive CryptoResult
  | ok
  | badSignature
  | otherFailure
  deriving Repr, DecidableEq

/-- The 6-bit value of a standard base64 alphabet character. -/
def b64Val (c : Char) : Option Nat :=
  if 'A' ≤ c ∧ c ≤ 'Z' then some (c.toNat - 65)
  else if 'a' ≤ c ∧ c ≤ 'z' then some (c.toNat - 71)
  else if '0' ≤ c ∧ c ≤ '9' then some (c.toNat + 4)
  else if c = '+' then some 62
  else if c = '/' then some 63
  else none

/-- Pack a run of 6-bit values (one base64 quantum at a time) into bytes. -/
def sixbitsToBytes : List Nat → List Nat
  | a :: b :: c :: d :: rest =>
    (a * 4 + b / 16) :: ((b % 16) * 16 + c / 4) :: ((c % 4) * 64 + d) ::
      sixbitsToBytes rest
  | [a, b, c] => [a * 4 + b / 16, (b % 16) * 16 + c / 4]
  | [a, b] => [a * 4 + b / 16]
  | [_] => []
  | [] => []

/-- `base64.b64decode(s)` with the default `validate=False`: characters
outside the alphabet are discarded, then the input must consist of whole
4-character quanta, with `=` padding only at the end; `none` models a
raised `binascii.Error`. -/
def b64Decode (s : String) : Option (List Nat) :=
  let cs := s.data.filter (fun c => (b64Val c).isSome || c == '=')
  let dataPart := cs.takeWhile (fun c => c != '=')
  let padPart := cs.drop dataPart.length
  if padPart.all (fun c => c == '=') ∧ padPart.length ≤ 2 ∧
     (dataPart.length + padPart.length) % 4 = 0 then
    some (sixbitsToBytes (dataPart.filterMap b64Val))
  else none

/-- `_verify_signature(event_data, signature_b64, collector_id)` from
`src/ingest/main.py`. `public_keys` is the loaded key map and `verify` the
cryptographic check of the nacl `VerifyKey`. An `Except.error` is an
exception propagating out of the function: the source calls
`base64.b64decode(signature_b64)` OUTSIDE its try block, so a decode
failure is raised upward, while everything inside the try returns a
`Bool`. -/
def verify_signature (public_keys : List (String × String))
    (verify : String → List Nat → List Nat → CryptoResult)
    (event_data : List Nat) (signature_b64 : String) (collector_id : String) :
    Except String Bool :=
  match public_keys.lookup collector_id with
  | none => Except.ok false
  | some verify_key =>
    match b64Decode signature_b64 with
    | none => Except.error "binascii.Error"
    | some signature =>
      match verify verify_key event_data signature with
      | CryptoResult.ok => Except.ok true
      | CryptoResult.badSignature => Except.ok false
      | CryptoResult.otherFailure => Except.ok false

/-- C2: for a registered collector and the malformed base64 signature
`"a"` (one data character cannot form a quantum, so `base64.b64decode`
raises `binascii.Error`), `_verify_signature` propagates the exception
instead of returning `False`: the decode happens outside the try block.
On a decodable signature the function does fail closed. -/
theorem verify_signature_raises_on_malformed_b64 :
    verify_signature [("collector-1", "pk-bytes")]
      (fun _ _ _ => CryptoResult.badSignature) [1, 2, 3] "a" "collector-1" =
      Except.error "binascii.Error" ∧
    (∀ b : Bool,
      verify_signature [("collector-1", "pk-bytes")]
        (fun _ _ _ => CryptoResult.badSignature) [1, 2, 3] "a" "collector-1" ≠
        Except.ok b) := by
  have herr : verify_signature [("collector-1", "pk-bytes")]
      (fun _ _ _ => CryptoResult.badSignature) [1, 2, 3] "a" "collector-1" =
      Except.error "binascii.Error" := rfl
  refine ⟨herr, ?_⟩
  intro b h
  rw [herr] at h
  exact Except.noConfusion h

/-! ## main.py: sink writes -/

/-- Upsert into a keyed store held as an association list: if the key is
present every binding of it is overwritten in place, otherwise the new
binding is appended. This is the shared semantics of (a) an
`open(path, "wb")` file write, which truncates and replaces the content
at that path, and (b) an OpenSearch `index` call with an explicit `id`,
which replaces the document stored under that id. -/
def upsertStore {κ α : Type} [DecidableEq κ] :
    List (κ × α) → κ → α → List (κ × α)
  | [], k, v => [(k, v)]
  | p :: ps, k, v => if p.1 = k then (k, v) :: ps else p :: upsertStore ps k v

/-- Number of bindings of a key in a store. -/
def countKey {κ α : Type} [DecidableEq κ] : List (κ × α) → κ → Nat
  | [], _ => 0
  | p :: ps, k => (if p.1 = k then 1 else 0) + countKey ps k

/-- `_archive_canonical_json(event_id, canonical_json)` from
`src/ingest/main.py`: write the bytes to
`os.path.join(archive_path, event_id + ".json")`, replacing any previous
content of that file. The first argument is the archive directory state. -/
def archive_canonical_json (dir : List (String × String))
    (archive_path event_id canonical_json : String) : List (String × String) :=
  upsertStore dir (archive_path ++ "/" ++ event_id ++ ".json") canonical_json

/-- `_write_to_opensearch(doc)` from `src/ingest/main.py`, restricted to
the index call `opensearch_client.index(index=index_name, id=doc["id"],
body=doc)`: an upsert keyed by `(index_name, doc_id)`. -/
def write_to_opensearch (idx : List ((String × String) × String))
    (index_name doc_id body : String) : List ((String × String) × String) :=
  upsertStore idx (index_name, doc_id) body

/-- Looking a key up after an upsert yields the value just written. -/
theorem upsertStore_lookup {κ α : Type} [DecidableEq κ] [BEq κ] [LawfulBEq κ]
    (m : List (κ × α)) (k : κ) (v : α) :
    (upsertStore m k v).lookup k = some v := by
  induction m with
  | nil => simp [upsertStore, List.lookup]
  | cons p ps ih =>
    by_cases h : p.1 = k
    · simp [upsertStore, h, List.lookup]
    · have hne : (k == p.1) = false := by
        rw [beq_eq_false_iff_ne]
        exact fun hk => h hk.symm
      simp [upsertStore, h, List.lookup, hne, ih]

/-- Upserting never duplicates a key: a store holding the key at most
once holds it exactly once afterwards. -/
theorem countKey_upsertStore {κ α : Type} [DecidableEq κ]
    (m : List (κ × α)) (k : κ) (v : α) (h : countKey m k ≤ 1) :
    countKey (upsertStore m k v) k = 1 := by
  induction m with
  | nil => simp [upsertStore, countKey]
  | cons p ps ih =>
    by_cases hp : p.1 = k
    · simp only [countKey, hp, if_true] at h
      simp [upsertStore, hp, countKey]
      omega
    · simp only [countKey, hp, if_false] at h
      simp only [Nat.zero_add] at h
      simp [upsertStore, hp, countKey, ih h]

/-- C8: sink writes are idempotent per event id. Writing the same event
id twice to the archive (same archive path) leaves exactly one archived
object for that id, holding the second write's bytes; indexing the same
id twice into the same index leaves exactly one document for that id,
holding the second write's body. The preconditions say the stores start
from valid states (no key bound twice, as on a real filesystem or index). -/
theorem sink_writes_idempotent_per_id
    (dir : List (String × String)) (archive_path event_id c1 c2 : String)
    (idx : List ((String × String) × String)) (index_name b1 b2 : String)
    (hdir : countKey dir (archive_path ++ "/" ++ event_id ++ ".json") ≤ 1)
    (hidx : countKey idx (index_name, event_id) ≤ 1) :
    countKey
      (archive_canonical_json (archive_canonical_json dir archive_path event_id c1)
        archive_path event_id c2)
      (archive_path ++ "/" ++ event_id ++ ".json") = 1 ∧
    (archive_canonical_json (archive_canonical_json dir archive_path event_id c1)
        archive_path event_id c2).lookup
      (archive_path ++ "/" ++ event_id ++ ".json") = some c2 ∧
    countKey
      (write_to_opensearch (write_to_opensearch idx index_name event_id b1)
        index_name event_id b2)
      (index_name, event_id) = 1 ∧
    (write_to_opensearch (write_to_opensearch idx index_name event_id b1)
        index_name event_id b2).lookup (index_name, event_id) = some b2 := by
  have hdir1 : countKey (archive_canonical_json dir archive_path event_id c1)
      (archive_path ++ "/" ++ event_id ++ ".json") ≤ 1 := by
    have := countKey_upsertStore dir (archive_path ++ "/" ++ event_id ++ ".json") c1 hdir
    unfold archive_canonical_json
    omega
  have hidx1 : countKey (write_to_opensearch idx index_name event_id b1)
      (index_name, event_id) ≤ 1 := by
    have := countKey_upsertStore idx (index_name, event_id) b1 hidx
    unfold write_to_opensearch
    omega
  exact ⟨countKey_upsertStore _ _ _ hdir1,
    upsertStore_lookup _ _ _,
    countKey_upsertStore _ _ _ hidx1,
    upsertStore_lookup _ _ _⟩

/-- C8 witness: from empty stores, two writes of event id `ev-1` leave
one archive object with the latest bytes and one index document with the
latest body. -/
theorem sink_writes_idempotent_per_id_witness :
    countKey
      (archive_canonical_json (archive_canonical_json [] "archive" "ev-1" "one")
        "archive" "ev-1" "two") ("archive" ++ "/" ++ "ev-1" ++ ".json") = 1 ∧
    (archive_canonical_json (archive_canonical_json [] "archive" "ev-1" "one")
        "archive" "ev-1" "two").lookup
      ("archive" ++ "/" ++ "ev-1" ++ ".json") = some "two" ∧
    countKey
      (write_to_opensearch (write_to_opensearch [] "asset-intelligence-2026-10"
        "ev-1" "body1") "asset-intelligence-2026-10" "ev-1" "body2")
      ("asset-intelligence-2026-10", "ev-1") = 1 ∧
    (write_to_opensearch (write_to_opensearch [] "asset-intelligence-2026-10"
        "ev-1" "body1") "asset-intelligence-2026-10" "ev-1" "body2").lookup
      ("asset-intelligence-2026-10", "ev-1") = some "body2" :=
  sink_writes_idempotent_per_id [] "archive" "ev-1" "one" "two"
    [] "asset-intelligence-2026-10" "body1" "body2"
    (by simp [countKey]) (by simp [countKey])

/-! ## scanner.py: grab_banner -/

/-- The Python codec error handler named in `bytes.decode`: the source
uses `ignore` (drop the invalid bytes); the spec describes `replace`
(substitute U+FFFD). -/
inductive ErrHandler
  | ignore
  | replace
  deriving Repr, DecidableEq

/-- What an error handler emits for one invalid subsequence. -/
def ErrHandler.emit : ErrHandler → List Char
  | ErrHandler.ignore => []
  | ErrHandler.replace => [Char.ofNat 0xFFFD]

/-- Is a byte a UTF-8 continuation byte in the given inclusive range? -/
def inByteRange (b lo hi : Nat) : Bool :=
  lo ≤ b && b ≤ hi

/-- Admissible range of the first continuation byte after a given lead
byte (the constraints CPython enforces against overlong encodings,
surrogates and out-of-range code points). -/
def cont1Range (lead : Nat) : Nat × Nat :=
  if lead = 0xE0 then (0xA0, 0xBF)
  else if lead = 0xED then (0x80, 0x9F)
  else if lead = 0xF0 then (0x90, 0xBF)
  else if lead = 0xF4 then (0x80, 0x8F)
  else (0x80, 0xBF)

/-- Fuel-indexed UTF-8 decoder with CPython semantics: a valid sequence
yields its code point; an invalid one consumes its maximal valid prefix
(at least the one offending byte) and lets the error handler decide what
to emit. The fuel only bounds recursion; `utf8Decode` supplies enough. -/
def utf8DecodeGo (h : ErrHandler) : Nat → List Nat → List Char
  | 0, _ => []
  | _ + 1, [] => []
  | fuel + 1, b :: rest =>
    if b < 0x80 then
      Char.ofNat b :: utf8DecodeGo h fuel rest
    else if 0xC2 ≤ b && b ≤ 0xDF then
      match rest with
      | c1 :: rest2 =>
        if inByteRange c1 0x80 0xBF then
          Char.ofNat ((b - 0xC0) * 64 + (c1 - 0x80)) :: utf8DecodeGo h fuel rest2
        else h.emit ++ utf8DecodeGo h fuel rest
      | [] => h.emit
    else if 0xE0 ≤ b && b ≤ 0xEF then
      match rest with
      | c1 :: rest2 =>
        if inByteRange c1 (cont1Range b).1 (cont1Range b).2 then
          match rest2 with
          | c2 :: rest3 =>
            if inByteRange c2 0x80 0xBF then
              Char.ofNat ((b - 0xE0) * 4096 + (c1 - 0x80) * 64 + (c2 - 0x80)) ::
                utf8DecodeGo h fuel rest3
            else h.emit ++ utf8DecodeGo h fuel rest2
          | [] => h.emit
        else h.emit ++ utf8DecodeGo h fuel rest
      | [] => h.emit
    else if 0xF0 ≤ b && b ≤ 0xF4 then
      match rest with
      | c1 :: rest2 =>
        if inByteRange c1 (cont1Range b).1 (cont1Range b).2 then
          match rest2 with
          | c2 :: rest3 =>
            if inByteRange c2 0x80 0xBF then
              match rest3 with
              | c3 :: rest4 =>
                if inByteRange c3 0x80 0xBF then
                  Char.ofNat ((b - 0xF0) * 262144 + (c1 - 0x80) * 4096 +
                    (c2 - 0x80) * 64 + (c3 - 0x80)) :: utf8DecodeGo h fuel rest4
                else h.emit ++ utf8DecodeGo h fuel rest3
              | [] => h.emit
            else h.emit ++ utf8DecodeGo h fuel rest2
          | [] => h.emit
        else h.emit ++ utf8DecodeGo h fuel rest
      | [] => h.emit
    else h.emit ++ utf8DecodeGo h fuel rest

/-- `bytes.decode('utf-8', errors=h)`: total on every byte sequence. -/
def utf8Decode (h : ErrHandler) (bs : List Nat) : List Char :=
  utf8DecodeGo h (bs.length + 1) bs

/-- Python `str.isspace` for a single character (the characters
`str.strip()` removes). -/
def pyIsSpace (c : Char) : Bool :=
  let n := c.toNat
  (9 ≤ n && n ≤ 13) || (28 ≤ n && n ≤ 32) || n == 133 || n == 160 ||
    n == 5760 || (8192 ≤ n && n ≤ 8202) || n == 8232 || n == 8233 ||
    n == 8239 || n == 8287 || n == 12288

/-- Python `str.strip()`: drop leading and trailing whitespace. -/
def pyStrip (cs : List Char) : List Char :=
  ((cs.dropWhile pyIsSpace).reverse.dropWhile pyIsSpace).reverse

/-- The banner post-processing of `grab_banner` in
`src/scanner/scanner.py`:
`banner.decode('utf-8', errors='ignore').strip()[:500]`. -/
def grab_banner_text (banner : List Nat) : String :=
  String.mk ((pyStrip (utf8Decode ErrHandler.ignore banner)).take 500)

/-- Modelled from the spec: the same post-processing but with invalid
byte sequences REPLACED (U+FFFD), as the spec's words describe, rather
than ignored. -/
def grab_banner_text_replace (banner : List Nat) : String :=
  String.mk ((pyStrip (utf8Decode ErrHandler.replace banner)).take 500)

/-- C9 counterexample: on the one-byte banner `0xFF` the code's
`errors='ignore'` decode drops the invalid byte and yields the empty
string, while the replacement decoding the claim describes yields the
single replacement character: invalid bytes are dropped, not replaced. -/
theorem grab_banner_ignores_not_replaces :
    grab_banner_text [255] = "" ∧
    grab_banner_text_replace [255] = String.mk [Char.ofNat 0xFFFD] ∧
    grab_banner_text [255] ≠ grab_banner_text_replace [255] := by
  refine ⟨rfl, rfl, by decide⟩

/-- C9 (amended): banner capture is total on every byte sequence — the
`errors='ignore'` decode is a total function that drops invalid byte
sequences — and the returned string never exceeds 500 characters. -/
theorem grab_banner_bounded_length (banner : List Nat) :
    (grab_banner_text banner).length ≤ 500 := by
  have h : (grab_banner_text banner).length =
      ((pyStrip (utf8Decode ErrHandler.ignore banner)).take 500).length := rfl
  rw [h, List.length_take]
  exact min_le_left _ _

/-- C3 witness: a concrete Telnet event with GeoIP country `Germany`
scores breakdown `{15, 0, 0, 0, 5, 0}` and risk 20. -/
theorem telnet_public_event_scores_twenty_witness :
    get_risk_breakdown 0
      { target := some { ip := some "203.0.113.9", port := some 23 }
        probes := none
        enrichment := some
          { geoip := some ⟨some "Germany", some "Berlin", none⟩
            tls_cert := none
            cve_matches := some [] } } = ⟨15, 0, 0, 0, 5, 0⟩ ∧
    calculate_risk 0
      { target := some { ip := some "203.0.113.9", port := some 23 }
        probes := none
        enrichment := some
          { geoip := some ⟨some "Germany", some "Berlin", none⟩
            tls_cert := none
            cve_matches := some [] } } = 20 :=
  telnet_public_event_scores_twenty 0
    { target := some { ip := some "203.0.113.9", port := some 23 }
      probes := none
      enrichment := some
        { geoip := some ⟨some "Germany", some "Berlin", none⟩
          tls_cert := none
          cve_matches := some [] } }
    { geoip := some ⟨some "Germany", some "Berlin", none⟩
      tls_cert := none
      cve_matches := some [] }
    ⟨some "Germany", some "Berlin", none⟩ "Germany"
    rfl
    (fun p hp => Option.noConfusion hp)
    (fun p h hp _ => Option.noConfusion hp)
    rfl rfl (Or.inr rfl) rfl rfl
    (by refine ⟨?_, ?_, ?_⟩ <;> decide)
